import Mathlib

/-!
Verification of the checkout subsystem of the E-commerce backend
(`src/controllers/paymentController.js`, `createOrder` and `cancelOrder`,
together with the Mongoose schemas in `src/models/` and the order schema).

The embedding follows the JavaScript source line by line:
* machine numbers (prices, amounts) are modelled as rationals, stock as an
  integer (the `$inc` update bypasses the schema `min: 0` validator, so stock
  can go negative), quantities and ids as naturals;
* JavaScript truthiness is modelled explicitly wherever the source relies on
  it (`product.discountPrice || product.price`, `coupon.usageLimit && …`,
  `coupon.maxDiscountAmount`, `couponCode`, `paymentMethod || 'COD'`);
* Mongoose `Model.create` / `save` run schema validation (`min` bounds on
  `totalPrice`, `discount`, `amount`, `quantity`); `findByIdAndUpdate` with
  `$inc` does not run validators;
* the database is a `State` record of association lists, each controller a
  function `… → Except Error Result × State`;
* external failures (the notification insert and the confirmation email)
  are injected through an `Env` record: `sendNotification` is awaited
  without a try/catch in `createOrder`, while `sendEmail` is wrapped in one.
-/

unseal Rat.add Rat.mul Rat.sub Rat.inv

abbrev PId := Nat
abbrev UId := Nat
abbrev OId := Nat
abbrev PayId := Nat

/-- Product document (`src/models/Product.js`): the fields read or written by
the checkout path. `discountPrice` is optional in the schema. -/
structure Product where
  title : String
  price : ℚ
  discountPrice : Option ℚ
  stock : ℤ
  isActive : Bool
  images : List String
deriving Repr, DecidableEq

/-- Cart line item (`src/models/Cart.js`, `cartItemSchema`). -/
structure CartItem where
  productId : PId
  quantity : Nat
  price : ℚ
deriving Repr, DecidableEq

/-- Cart document (`src/models/Cart.js`): one cart per user. -/
structure Cart where
  userId : UId
  items : List CartItem
deriving Repr, DecidableEq

inductive DiscountType where
  | percentage
  | fixed
deriving Repr, DecidableEq

/-- Coupon document, with the fields `createOrder` queries and updates. -/
structure Coupon where
  code : String
  discountType : DiscountType
  discountValue : ℚ
  minPurchaseAmount : ℚ
  maxDiscountAmount : Option ℚ
  validFrom : ℤ
  validUntil : ℤ
  usageLimit : Option Nat
  usedCount : Nat
  isActive : Bool
deriving Repr, DecidableEq

/-- Order line snapshot (`orderItemSchema`). -/
structure OrderItem where
  productId : PId
  title : String
  quantity : Nat
  price : ℚ
  image : Option String
deriving Repr, DecidableEq

inductive OrderPaymentStatus where
  | pending
  | paid
  | failed
  | refunded
deriving Repr, DecidableEq

inductive OrderStatus where
  | pending
  | confirmed
  | processing
  | shipped
  | delivered
  | cancelled
deriving Repr, DecidableEq

inductive PayMethod where
  | card
  | cod
  | payPal
  | stripe
deriving Repr, DecidableEq

inductive PaymentStatus where
  | pending
  | processing
  | completed
  | failed
  | refunded
  | cancelled
deriving Repr, DecidableEq

/-- Order document (`orderSchema`): statuses default to pending/pending. -/
structure Order where
  id : OId
  userId : UId
  items : List OrderItem
  totalPrice : ℚ
  discount : ℚ
  couponCode : Option String
  paymentStatus : OrderPaymentStatus
  orderStatus : OrderStatus
  paymentMethod : PayMethod
  paymentId : Option PayId
deriving Repr, DecidableEq

/-- Payment document (`src/models/Payment.js`). -/
structure Payment where
  id : PayId
  orderId : OId
  userId : UId
  amount : ℚ
  method : PayMethod
  status : PaymentStatus
deriving Repr, DecidableEq

/-- Notification document created by `sendNotification`
(`src/utils/notificationService.js`). -/
structure NotificationRec where
  userId : UId
  ntype : String
deriving Repr, DecidableEq

/-- The database plus the out-of-band email log. `nextOrderId` and
`nextPaymentId` model fresh `_id` generation. -/
structure State where
  products : List (PId × Product)
  carts : List Cart
  coupons : List Coupon
  orders : List Order
  payments : List Payment
  notifications : List NotificationRec
  emails : List UId
  nextOrderId : OId
  nextPaymentId : PayId
deriving Repr, DecidableEq

/-- Environment of a request: the current time (`new Date()`) and whether the
two external side effects of step 10 throw when invoked. -/
structure Env where
  now : ℤ
  notifFails : Bool
  emailFails : Bool
deriving Repr, DecidableEq

/-- Request body of `POST /api/orders` (the fields `createOrder` reads). -/
structure OrderRequest where
  userId : UId
  paymentMethod : Option PayMethod
  couponCode : Option String
deriving Repr, DecidableEq

/-- Errors surfaced by `createOrder`: the `BadRequestError`s of steps 1-3, a
Mongoose schema-validation rejection, and an error propagated out of
`sendNotification` by `catchAsync`. -/
inductive CkError where
  | emptyCart
  | productUnavailable
  | insufficientStock
  | couponInvalid
  | couponExhausted
  | minPurchaseNotMet
  | validationError
  | notificationFailed
deriving Repr, DecidableEq

/-- Errors surfaced by `cancelOrder`. -/
inductive CancelError where
  | notFound
  | alreadyCancelled
  | notCancellable
deriving Repr, DecidableEq

/-- `couponCode.toUpperCase()`, written with a kernel-computable character
map. -/
def jsToUpper (s : String) : String := String.mk (s.data.map Char.toUpper)

/-! ### Database lookups and single-document updates -/

def findProductL (l : List (PId × Product)) (pid : PId) : Option Product :=
  (l.find? (fun e => e.1 == pid)).map (·.2)

def findProduct (s : State) (pid : PId) : Option Product :=
  findProductL s.products pid

def findCartL (l : List Cart) (uid : UId) : Option Cart :=
  l.find? (fun c => c.userId == uid)

def findCart (s : State) (uid : UId) : Option Cart :=
  findCartL s.carts uid

def findOrder (s : State) (oid : OId) (uid : UId) : Option Order :=
  s.orders.find? (fun o => o.id == oid && o.userId == uid)

def findPaymentL (l : List Payment) (pid : PayId) : Option Payment :=
  l.find? (fun p => p.id == pid)

def findPayment (s : State) (pid : PayId) : Option Payment :=
  findPaymentL s.payments pid

/-- `Product.findByIdAndUpdate`: updates the matching document, no-op when the
id is absent. -/
def updateProduct (s : State) (pid : PId) (f : Product → Product) : State :=
  { s with products := s.products.map (fun e => if e.1 == pid then (e.1, f e.2) else e) }

/-- `coupon.save()` after `coupon.usedCount += 1` (codes are unique). -/
def incCouponUsage (s : State) (code : String) : State :=
  let f := fun (c : Coupon) =>
    if c.code == code then { c with usedCount := c.usedCount + 1 } else c
  { s with coupons := s.coupons.map f }

/-- `cart.items = []; await cart.save()` (one cart per user). -/
def clearCart (s : State) (uid : UId) : State :=
  let f := fun (c : Cart) => if c.userId == uid then { c with items := [] } else c
  { s with carts := s.carts.map f }

/-- `order.save()` modelled as an update of the stored order document. -/
def updateOrder (s : State) (oid : OId) (f : Order → Order) : State :=
  { s with orders := s.orders.map (fun o => if o.id == oid then f o else o) }

/-- `Payment.findByIdAndUpdate`: no-op when the id is absent. -/
def updatePayment (s : State) (pid : PayId) (f : Payment → Payment) : State :=
  { s with payments := s.payments.map (fun p => if p.id == pid then f p else p) }

/-! ### createOrder, validation phase (source lines 398-467: reads only) -/

/-- `const itemPrice = product.discountPrice || product.price;` — JavaScript
`||` falls through on `undefined` and on `0`. -/
def effectivePrice (p : Product) : ℚ :=
  match p.discountPrice with
  | some d => if d = 0 then p.price else d
  | none => p.price

/-- The order-item snapshot pushed for one cart item (source lines 424-430). -/
def mkOrderItem (ci : CartItem) (p : Product) : OrderItem :=
  { productId := ci.productId, title := p.title, quantity := ci.quantity,
    price := effectivePrice p, image := p.images.head? }

/-- The per-item validation loop: reload each product, check availability and
stock, accumulate the order-item snapshots and the subtotal. -/
def buildOrderItems (s : State) : List CartItem → Except CkError (List OrderItem × ℚ)
  | [] => .ok ([], 0)
  | ci :: rest =>
    match findProduct s ci.productId with
    | none => .error .productUnavailable
    | some p =>
      if !p.isActive then .error .productUnavailable
      else if p.stock < (ci.quantity : ℤ) then .error .insufficientStock
      else
        match buildOrderItems s rest with
        | .error e => .error e
        | .ok (items, tot) =>
          .ok (mkOrderItem ci p :: items, effectivePrice p * (ci.quantity : ℚ) + tot)

/-- `Coupon.findOne({code: code.toUpperCase(), isActive: true,
validFrom: {$lte: now}, validUntil: {$gte: now}})`. -/
def findValidCoupon (now : ℤ) (s : State) (code : String) : Option Coupon :=
  s.coupons.find? (fun c =>
    c.code == jsToUpper code && c.isActive &&
    decide (c.validFrom ≤ now) && decide (now ≤ c.validUntil))

/-- `coupon.usageLimit && coupon.usedCount >= coupon.usageLimit` —
a `usageLimit` of `0` (or unset) is falsy, so the check is skipped. -/
def couponExhaustedCheck (c : Coupon) : Bool :=
  match c.usageLimit with
  | some n => n != 0 && c.usedCount ≥ n
  | none => false

/-- Coupon evaluation of `createOrder` (source lines 437-467): returns the
coupon found and the computed discount. `maxDiscountAmount` only clamps when
truthy (set and nonzero). -/
def applyCoupon (now : ℤ) (s : State) (code : String) (subtotal : ℚ) :
    Except CkError (Coupon × ℚ) :=
  match findValidCoupon now s code with
  | none => .error .couponInvalid
  | some c =>
    if couponExhaustedCheck c then .error .couponExhausted
    else if subtotal < c.minPurchaseAmount then .error .minPurchaseNotMet
    else
      let discount :=
        match c.discountType with
        | .percentage =>
          let d := subtotal * c.discountValue / 100
          match c.maxDiscountAmount with
          | some m => if m = 0 then d else min d m
          | none => d
        | .fixed => c.discountValue
      .ok (c, discount)

/-- `if (couponCode)` — an absent or empty coupon code is falsy. -/
def couponCodeOf (req : OrderRequest) : Option String :=
  match req.couponCode with
  | some c => if c = "" then none else some c
  | none => none

/-- Everything `createOrder` computes before its first write. -/
structure ValidData where
  cart : Cart
  orderItems : List OrderItem
  subtotal : ℚ
  couponApplied : Option Coupon
  discount : ℚ
  total : ℚ
  couponCodeNorm : Option String
deriving Repr, DecidableEq

/-- Steps 1-3 of `createOrder`: load the cart, validate every item, evaluate
the coupon. Reads only — no write happens before `Order.create`. -/
def checkoutValidate (now : ℤ) (req : OrderRequest) (s : State) :
    Except CkError ValidData :=
  match findCart s req.userId with
  | none => .error .emptyCart
  | some cart =>
    if cart.items.isEmpty then .error .emptyCart
    else
      match buildOrderItems s cart.items with
      | .error e => .error e
      | .ok (oitems, subtotal) =>
        match couponCodeOf req with
        | none =>
          .ok { cart := cart, orderItems := oitems, subtotal := subtotal,
                couponApplied := none, discount := 0, total := subtotal,
                couponCodeNorm := none }
        | some code =>
          match applyCoupon now s code subtotal with
          | .error e => .error e
          | .ok (c, disc) =>
            .ok { cart := cart, orderItems := oitems, subtotal := subtotal,
                  couponApplied := some c, discount := disc, total := subtotal - disc,
                  couponCodeNorm := some (jsToUpper code) }

/-! ### createOrder, commit phase (source lines 470-535) -/

/-- Schema validation performed by `Order.create`: `totalPrice` and `discount`
carry `min: 0`, each item's `quantity` carries `min: 1`. -/
def orderCreateValid (d : ValidData) : Bool :=
  decide (0 ≤ d.total) && decide (0 ≤ d.discount) &&
  d.orderItems.all (fun oi => decide (1 ≤ oi.quantity))

/-- The order document `Order.create` inserts (defaults pending/pending,
`paymentMethod: paymentMethod || 'COD'`). -/
def mkOrderRec (req : OrderRequest) (s : State) (d : ValidData) : Order :=
  { id := s.nextOrderId, userId := req.userId, items := d.orderItems,
    totalPrice := d.total, discount := d.discount, couponCode := d.couponCodeNorm,
    paymentStatus := .pending, orderStatus := .pending,
    paymentMethod := req.paymentMethod.getD .cod, paymentId := none }

/-- The payment document `Payment.create` inserts. The status test is
`paymentMethod === 'COD'` on the raw request value, not on the defaulted
method. -/
def mkPaymentRec (req : OrderRequest) (d : ValidData) (pid : PayId) (oid : OId) :
    Payment :=
  { id := pid, orderId := oid, userId := req.userId, amount := d.total,
    method := req.paymentMethod.getD .cod,
    status := if req.paymentMethod = some .cod then .pending else .processing }

/-- The stock-reduction loop: `$inc: {stock: -item.quantity}` per order item
(no validator runs, so stock may go negative). -/
def applyDecrements (s : State) (l : List OrderItem) : State :=
  l.foldl (fun t oi => updateProduct t oi.productId
    (fun p => { p with stock := p.stock - (oi.quantity : ℤ) })) s

/-- The stock-restoration loop of `cancelOrder`: `$inc: {stock: item.quantity}`. -/
def applyIncrements (s : State) (l : List OrderItem) : State :=
  l.foldl (fun t oi => updateProduct t oi.productId
    (fun p => { p with stock := p.stock + (oi.quantity : ℤ) })) s

/-- Steps 4-7 of the commit: insert the order, bump the coupon's `usedCount`,
run the stock-decrement loop, clear the cart. -/
def prePaymentState (req : OrderRequest) (s : State) (d : ValidData) : State :=
  let s1 : State :=
    { s with orders := s.orders ++ [mkOrderRec req s d], nextOrderId := s.nextOrderId + 1 }
  let s2 : State :=
    match d.couponApplied with
    | some c => incCouponUsage s1 c.code
    | none => s1
  clearCart (applyDecrements s2 d.orderItems) req.userId

/-- Steps 8-9 of the commit: insert the payment record and link it to the
order (`order.paymentId = payment._id; await order.save()`). -/
def withPaymentState (req : OrderRequest) (s : State) (d : ValidData) (s4 : State) : State :=
  let pay := mkPaymentRec req d s4.nextPaymentId s.nextOrderId
  let s5 : State :=
    { s4 with payments := s4.payments ++ [pay], nextPaymentId := s4.nextPaymentId + 1 }
  updateOrder s5 s.nextOrderId (fun o => { o with paymentId := some pay.id })

/-- Step 10 of the commit on the non-throwing path: insert the notification
document, then send the confirmation email unless `sendEmail` throws (the
email is the only call wrapped in try/catch). -/
def postNotifyState (env : Env) (req : OrderRequest) (s6 : State) : State :=
  let s7 : State := { s6 with notifications :=
    s6.notifications ++ [{ userId := req.userId, ntype := "order_placed" }] }
  if env.emailFails then s7 else { s7 with emails := s7.emails ++ [req.userId] }

/-- The order document as returned to the client (after the `paymentId` link
was saved). -/
def successOrder (req : OrderRequest) (s : State) (d : ValidData) : Order :=
  { mkOrderRec req s d with paymentId := some (prePaymentState req s d).nextPaymentId }

/-- Steps 4-10 of `createOrder`: create the order, bump the coupon, decrement
stock, clear the cart, create and link the payment, then fire the
notification (unguarded `await`) and the email (guarded by try/catch). -/
def checkoutCommit (env : Env) (req : OrderRequest) (s : State) (d : ValidData) :
    Except CkError Order × State :=
  if orderCreateValid d then
    let s4 := prePaymentState req s d
    if d.total < 0 then (.error .validationError, s4)
    else
      let s6 := withPaymentState req s d s4
      if env.notifFails then (.error .notificationFailed, s6)
      else (.ok (successOrder req s d), postNotifyState env req s6)
  else (.error .validationError, s)

/-- `createOrder` (source lines 394-535). -/
def createOrder (env : Env) (req : OrderRequest) (s : State) :
    Except CkError Order × State :=
  match checkoutValidate env.now req s with
  | .error e => (.error e, s)
  | .ok d => checkoutCommit env req s d

/-! ### cancelOrder (source lines 588-631) -/

def cancelOrder (oid : OId) (uid : UId) (s : State) :
    Except CancelError Order × State :=
  match findOrder s oid uid with
  | none => (.error .notFound, s)
  | some order =>
    if order.orderStatus = .cancelled then (.error .alreadyCancelled, s)
    else if order.orderStatus = .shipped ∨ order.orderStatus = .delivered then
      (.error .notCancellable, s)
    else
      let s1 := applyIncrements s order.items
      let order' := { order with
        orderStatus := .cancelled,
        paymentStatus :=
          if order.paymentStatus = .paid then .refunded else order.paymentStatus }
      let s2 := updateOrder s1 order.id (fun _ => order')
      let s3 :=
        match order.paymentId with
        | some pid => updatePayment s2 pid (fun p => { p with status := .refunded })
        | none => s2
      (.ok order', s3)

/-! ### Interleaved execution of two concurrent createOrder calls

`createOrder` awaits one database operation at a time, so two concurrent
requests may interleave at every `await`. `CkThread`/`ckStep` is the same
checkout sequence as `createOrder`, specialized to a one-item cart with no
coupon, with each database operation (cart read, product read, order insert,
stock `$inc`, cart save, payment insert, order save, notification insert) as
one atomic step. -/

deriving instance DecidableEq for Except

structure CkThread where
  user : UId
  paymentMethod : Option PayMethod
  pc : Nat
  loadedItem : Option CartItem
  builtItem : Option OrderItem
  total : ℚ
  oid : Option OId
  payId : Option PayId
  result : Option (Except CkError Unit)
deriving Repr, DecidableEq

def CkThread.start (u : UId) (pm : Option PayMethod) : CkThread :=
  { user := u, paymentMethod := pm, pc := 0, loadedItem := none, builtItem := none,
    total := 0, oid := none, payId := none, result := none }

def CkThread.fail (t : CkThread) (e : CkError) : CkThread :=
  { t with result := some (.error e) }

/-- One atomic database operation of the checkout, at the thread's program
counter. A finished thread takes no further steps. -/
def ckStep (env : Env) (s : State) (t : CkThread) : State × CkThread :=
  match t.result with
  | some _ => (s, t)
  | none =>
    match t.pc with
    | 0 =>
      match findCart s t.user with
      | none => (s, t.fail .emptyCart)
      | some cart =>
        if cart.items.isEmpty then (s, t.fail .emptyCart)
        else (s, { t with loadedItem := cart.items.head?, pc := 1 })
    | 1 =>
      match t.loadedItem with
      | none => (s, t.fail .emptyCart)
      | some ci =>
        match findProduct s ci.productId with
        | none => (s, t.fail .productUnavailable)
        | some p =>
          if !p.isActive then (s, t.fail .productUnavailable)
          else if p.stock < (ci.quantity : ℤ) then (s, t.fail .insufficientStock)
          else
            let oi : OrderItem :=
              { productId := ci.productId, title := p.title, quantity := ci.quantity,
                price := effectivePrice p, image := p.images.head? }
            (s, { t with builtItem := some oi,
                         total := effectivePrice p * (ci.quantity : ℚ), pc := 2 })
    | 2 =>
      match t.builtItem with
      | none => (s, t.fail .emptyCart)
      | some oi =>
        if decide (0 ≤ t.total) && decide (1 ≤ oi.quantity) then
          let ord : Order :=
            { id := s.nextOrderId, userId := t.user, items := [oi], totalPrice := t.total,
              discount := 0, couponCode := none, paymentStatus := .pending,
              orderStatus := .pending, paymentMethod := t.paymentMethod.getD .cod,
              paymentId := none }
          ({ s with orders := s.orders ++ [ord], nextOrderId := s.nextOrderId + 1 },
           { t with oid := some s.nextOrderId, pc := 3 })
        else (s, t.fail .validationError)
    | 3 =>
      match t.builtItem with
      | none => (s, t.fail .emptyCart)
      | some oi =>
        (updateProduct s oi.productId (fun p => { p with stock := p.stock - (oi.quantity : ℤ) }),
         { t with pc := 4 })
    | 4 => (clearCart s t.user, { t with pc := 5 })
    | 5 =>
      let pay : Payment :=
        { id := s.nextPaymentId, orderId := t.oid.getD 0, userId := t.user,
          amount := t.total, method := t.paymentMethod.getD .cod,
          status := if t.paymentMethod = some .cod then .pending else .processing }
      ({ s with payments := s.payments ++ [pay], nextPaymentId := s.nextPaymentId + 1 },
       { t with payId := some pay.id, pc := 6 })
    | 6 =>
      match t.oid with
      | none => (s, t.fail .emptyCart)
      | some oid =>
        (updateOrder s oid (fun o => { o with paymentId := t.payId }), { t with pc := 7 })
    | 7 =>
      if env.notifFails then (s, t.fail .notificationFailed)
      else
        ({ s with notifications := s.notifications ++ [{ userId := t.user, ntype := "order_placed" }] },
         { t with pc := 8 })
    | _ =>
      let s' := if env.emailFails then s else { s with emails := s.emails ++ [t.user] }
      (s', { t with result := some (.ok ()) })

/-- Run two concurrent checkouts under a schedule: `true` steps the first
thread, `false` the second. -/
def runSched (env : Env) : List Bool → State × CkThread × CkThread → State × CkThread × CkThread
  | [], cfg => cfg
  | b :: rest, (s, ta, tb) =>
    if b then
      let (s', ta') := ckStep env s ta
      runSched env rest (s', ta', tb)
    else
      let (s', tb') := ckStep env s tb
      runSched env rest (s', ta, tb')

/-! ### Aggregate quantities

The total quantity a list of cart items (resp. order-item snapshots) orders
for one product: the exact amount the stock loops add or subtract. -/

def orderedQtyC (l : List CartItem) (pid : PId) : ℤ :=
  ((l.filter (fun ci => ci.productId == pid)).map (fun ci => (ci.quantity : ℤ))).sum

def orderedQtyO (l : List OrderItem) (pid : PId) : ℤ :=
  ((l.filter (fun oi => oi.productId == pid)).map (fun oi => (oi.quantity : ℤ))).sum

/-! ### Lemmas: single-document updates inside association lists -/

theorem find?_update_self {α : Type} (p : α → Bool) (g : α → α)
    (hg : ∀ a, p a = true → p (g a) = true) (l : List α) :
    (l.map (fun a => if p a then g a else a)).find? p = (l.find? p).map g := by
  induction l with
  | nil => rfl
  | cons a rest ih =>
    by_cases h : p a = true
    · simp [h, hg a h]
    · simp only [Bool.not_eq_true] at h
      simp [h, ih]

theorem find?_update_other {α : Type} (p q : α → Bool) (g : α → α)
    (hker : ∀ a, q (g a) = q a) (hpq : ∀ a, q a = true → p a = false) (l : List α) :
    (l.map (fun a => if p a then g a else a)).find? q = l.find? q := by
  induction l with
  | nil => rfl
  | cons a rest ih =>
    by_cases h : q a = true
    · have hp := hpq a h
      simp [hp, h]
    · simp only [Bool.not_eq_true] at h
      by_cases hpa : p a = true
      · have : q (g a) = false := by rw [hker]; exact h
        simp [hpa, h, this, ih]
      · simp only [Bool.not_eq_true] at hpa
        simp [hpa, h, ih]

theorem findProduct_updateProduct_self (s : State) (pid : PId) (f : Product → Product) :
    findProduct (updateProduct s pid f) pid = (findProduct s pid).map f := by
  unfold findProduct updateProduct findProductL
  simp only
  rw [find?_update_self (fun e => e.1 == pid) (fun e => (e.1, f e.2)) (fun a h => h)]
  cases s.products.find? (fun e => e.1 == pid) <;> rfl

theorem findProduct_updateProduct_ne (s : State) (pid q : PId) (f : Product → Product)
    (h : q ≠ pid) :
    findProduct (updateProduct s pid f) q = findProduct s q := by
  unfold findProduct updateProduct findProductL
  simp only
  rw [find?_update_other (fun e => e.1 == pid) (fun e => e.1 == q) (fun e => (e.1, f e.2))
    (fun a => rfl)]
  intro a ha
  simp only [beq_iff_eq] at ha
  rw [ha]
  simp [h]

theorem findPayment_updatePayment_self (s : State) (pid : PayId) (f : Payment → Payment)
    (hf : ∀ a : Payment, (f a).id = a.id) :
    findPayment (updatePayment s pid f) pid = (findPayment s pid).map f := by
  unfold findPayment updatePayment findPaymentL
  simp only
  exact find?_update_self (fun p => p.id == pid) f
    (fun a h => by show ((f a).id == pid) = true; rw [hf a]; exact h) _

theorem findCart_clearCart_self (s : State) (uid : UId) :
    findCart (clearCart s uid) uid = (findCart s uid).map (fun c => { c with items := [] }) := by
  unfold findCart clearCart findCartL
  simp only
  exact find?_update_self (fun c => c.userId == uid) (fun c : Cart => { c with items := [] })
    (fun a h => h) _

/-! ### Lemmas: which components each state transformer touches -/

theorem updateProduct_carts (s : State) (pid : PId) (f : Product → Product) :
    (updateProduct s pid f).carts = s.carts := rfl

theorem applyDecrements_carts (s : State) (l : List OrderItem) :
    (applyDecrements s l).carts = s.carts := by
  induction l generalizing s with
  | nil => rfl
  | cons oi rest ih => exact ih _

theorem applyDecrements_orders (s : State) (l : List OrderItem) :
    (applyDecrements s l).orders = s.orders := by
  induction l generalizing s with
  | nil => rfl
  | cons oi rest ih => exact ih _

theorem applyDecrements_coupons (s : State) (l : List OrderItem) :
    (applyDecrements s l).coupons = s.coupons := by
  induction l generalizing s with
  | nil => rfl
  | cons oi rest ih => exact ih _

theorem applyDecrements_payments (s : State) (l : List OrderItem) :
    (applyDecrements s l).payments = s.payments := by
  induction l generalizing s with
  | nil => rfl
  | cons oi rest ih => exact ih _

theorem applyDecrements_notifications (s : State) (l : List OrderItem) :
    (applyDecrements s l).notifications = s.notifications := by
  induction l generalizing s with
  | nil => rfl
  | cons oi rest ih => exact ih _

theorem applyDecrements_nextPaymentId (s : State) (l : List OrderItem) :
    (applyDecrements s l).nextPaymentId = s.nextPaymentId := by
  induction l generalizing s with
  | nil => rfl
  | cons oi rest ih => exact ih _

theorem applyIncrements_orders (s : State) (l : List OrderItem) :
    (applyIncrements s l).orders = s.orders := by
  induction l generalizing s with
  | nil => rfl
  | cons oi rest ih => exact ih _

theorem applyIncrements_coupons (s : State) (l : List OrderItem) :
    (applyIncrements s l).coupons = s.coupons := by
  induction l generalizing s with
  | nil => rfl
  | cons oi rest ih => exact ih _

theorem applyIncrements_payments (s : State) (l : List OrderItem) :
    (applyIncrements s l).payments = s.payments := by
  induction l generalizing s with
  | nil => rfl
  | cons oi rest ih => exact ih _

/-! ### Lemmas: the stock loops change each product's stock by exactly the
aggregate ordered quantity -/

theorem findProduct_applyDecrements (l : List OrderItem) (s : State) (pid : PId) (p : Product)
    (h : findProduct s pid = some p) :
    findProduct (applyDecrements s l) pid =
      some { p with stock := p.stock - orderedQtyO l pid } := by
  induction l generalizing s p with
  | nil =>
    simpa [applyDecrements, orderedQtyO] using h
  | cons oi rest ih =>
    show findProduct (applyDecrements (updateProduct s oi.productId _) rest) pid = _
    by_cases hpid : oi.productId = pid
    · subst hpid
      have h1 : findProduct (updateProduct s oi.productId
          (fun p => { p with stock := p.stock - (oi.quantity : ℤ) })) oi.productId =
          some { p with stock := p.stock - (oi.quantity : ℤ) } := by
        rw [findProduct_updateProduct_self, h]; rfl
      rw [show orderedQtyO (oi :: rest) oi.productId =
            (oi.quantity : ℤ) + orderedQtyO rest oi.productId from by
          simp [orderedQtyO, List.filter_cons]]
      rw [show p.stock - ((oi.quantity : ℤ) + orderedQtyO rest oi.productId) =
            (p.stock - (oi.quantity : ℤ)) - orderedQtyO rest oi.productId from by ring]
      exact ih _ _ h1
    · have h1 : findProduct (updateProduct s oi.productId
          (fun p => { p with stock := p.stock - (oi.quantity : ℤ) })) pid = some p := by
        rw [findProduct_updateProduct_ne _ _ _ _ (fun he => hpid he.symm)]
        exact h
      rw [show orderedQtyO (oi :: rest) pid = orderedQtyO rest pid from by
          simp [orderedQtyO, List.filter_cons, hpid]]
      exact ih _ _ h1

theorem findProduct_applyIncrements (l : List OrderItem) (s : State) (pid : PId) (p : Product)
    (h : findProduct s pid = some p) :
    findProduct (applyIncrements s l) pid =
      some { p with stock := p.stock + orderedQtyO l pid } := by
  induction l generalizing s p with
  | nil =>
    simpa [applyIncrements, orderedQtyO] using h
  | cons oi rest ih =>
    show findProduct (applyIncrements (updateProduct s oi.productId _) rest) pid = _
    by_cases hpid : oi.productId = pid
    · subst hpid
      have h1 : findProduct (updateProduct s oi.productId
          (fun p => { p with stock := p.stock + (oi.quantity : ℤ) })) oi.productId =
          some { p with stock := p.stock + (oi.quantity : ℤ) } := by
        rw [findProduct_updateProduct_self, h]; rfl
      rw [show orderedQtyO (oi :: rest) oi.productId =
            (oi.quantity : ℤ) + orderedQtyO rest oi.productId from by
          simp [orderedQtyO, List.filter_cons]]
      rw [show p.stock + ((oi.quantity : ℤ) + orderedQtyO rest oi.productId) =
            (p.stock + (oi.quantity : ℤ)) + orderedQtyO rest oi.productId from by ring]
      exact ih _ _ h1
    · have h1 : findProduct (updateProduct s oi.productId
          (fun p => { p with stock := p.stock + (oi.quantity : ℤ) })) pid = some p := by
        rw [findProduct_updateProduct_ne _ _ _ _ (fun he => hpid he.symm)]
        exact h
      rw [show orderedQtyO (oi :: rest) pid = orderedQtyO rest pid from by
          simp [orderedQtyO, List.filter_cons, hpid]]
      exact ih _ _ h1

/-! ### Lemmas: the commit phases componentwise -/

theorem prePaymentState_payments (req : OrderRequest) (s : State) (d : ValidData) :
    (prePaymentState req s d).payments = s.payments := by
  unfold prePaymentState
  cases d.couponApplied <;>
    simp [clearCart, incCouponUsage, applyDecrements_payments]

theorem prePaymentState_nextPaymentId (req : OrderRequest) (s : State) (d : ValidData) :
    (prePaymentState req s d).nextPaymentId = s.nextPaymentId := by
  unfold prePaymentState
  cases d.couponApplied <;>
    simp [clearCart, incCouponUsage, applyDecrements_nextPaymentId]

theorem prePaymentState_notifications (req : OrderRequest) (s : State) (d : ValidData) :
    (prePaymentState req s d).notifications = s.notifications := by
  unfold prePaymentState
  cases d.couponApplied <;>
    simp [clearCart, incCouponUsage, applyDecrements_notifications]

theorem prePaymentState_orders (req : OrderRequest) (s : State) (d : ValidData) :
    (prePaymentState req s d).orders = s.orders ++ [mkOrderRec req s d] := by
  unfold prePaymentState
  cases d.couponApplied <;>
    simp [clearCart, incCouponUsage, applyDecrements_orders]

theorem prePaymentState_coupons_none (req : OrderRequest) (s : State) (d : ValidData)
    (h : d.couponApplied = none) :
    (prePaymentState req s d).coupons = s.coupons := by
  unfold prePaymentState
  rw [h]
  simp [clearCart, applyDecrements_coupons]

theorem prePaymentState_coupons_some (req : OrderRequest) (s : State) (d : ValidData)
    (c : Coupon) (h : d.couponApplied = some c) :
    (prePaymentState req s d).coupons = s.coupons.map
      (fun x => if x.code == c.code then { x with usedCount := x.usedCount + 1 } else x) := by
  unfold prePaymentState
  rw [h]
  simp [clearCart, incCouponUsage, applyDecrements_coupons]

theorem prePaymentState_carts (req : OrderRequest) (s : State) (d : ValidData) :
    (prePaymentState req s d).carts = (clearCart s req.userId).carts := by
  unfold prePaymentState clearCart
  cases d.couponApplied <;> simp [incCouponUsage, applyDecrements_carts]

theorem findCart_prePaymentState (req : OrderRequest) (s : State) (d : ValidData) :
    findCart (prePaymentState req s d) req.userId =
      (findCart s req.userId).map (fun c => { c with items := [] }) := by
  have h1 : findCart (prePaymentState req s d) req.userId =
      findCart (clearCart s req.userId) req.userId := by
    show findCartL _ _ = findCartL _ _
    rw [prePaymentState_carts]
  rw [h1, findCart_clearCart_self]

theorem applyDecrements_products_congr (l : List OrderItem) (t u : State)
    (h : t.products = u.products) :
    (applyDecrements t l).products = (applyDecrements u l).products := by
  induction l generalizing t u with
  | nil => exact h
  | cons oi rest ih =>
    show (applyDecrements (updateProduct t _ _) rest).products =
      (applyDecrements (updateProduct u _ _) rest).products
    refine ih _ _ ?_
    unfold updateProduct
    simp [h]

theorem prePaymentState_products (req : OrderRequest) (s : State) (d : ValidData) :
    (prePaymentState req s d).products = (applyDecrements s d.orderItems).products := by
  unfold prePaymentState
  cases hc : d.couponApplied with
  | none => exact applyDecrements_products_congr _ _ _ rfl
  | some c => exact applyDecrements_products_congr _ _ _ rfl

theorem findProduct_prePaymentState (req : OrderRequest) (s : State) (d : ValidData)
    (pid : PId) (p : Product) (h : findProduct s pid = some p) :
    findProduct (prePaymentState req s d) pid =
      some { p with stock := p.stock - orderedQtyO d.orderItems pid } := by
  show findProductL _ _ = _
  rw [prePaymentState_products]
  exact findProduct_applyDecrements _ _ _ _ h

theorem withPaymentState_payments (req : OrderRequest) (s : State) (d : ValidData)
    (s4 : State) :
    (withPaymentState req s d s4).payments =
      s4.payments ++ [mkPaymentRec req d s4.nextPaymentId s.nextOrderId] := rfl

theorem withPaymentState_products (req : OrderRequest) (s : State) (d : ValidData)
    (s4 : State) : (withPaymentState req s d s4).products = s4.products := rfl

theorem withPaymentState_carts (req : OrderRequest) (s : State) (d : ValidData)
    (s4 : State) : (withPaymentState req s d s4).carts = s4.carts := rfl

theorem withPaymentState_coupons (req : OrderRequest) (s : State) (d : ValidData)
    (s4 : State) : (withPaymentState req s d s4).coupons = s4.coupons := rfl

theorem withPaymentState_notifications (req : OrderRequest) (s : State) (d : ValidData)
    (s4 : State) : (withPaymentState req s d s4).notifications = s4.notifications := rfl

theorem postNotifyState_products (env : Env) (req : OrderRequest) (s6 : State) :
    (postNotifyState env req s6).products = s6.products := by
  unfold postNotifyState
  split <;> rfl

theorem postNotifyState_carts (env : Env) (req : OrderRequest) (s6 : State) :
    (postNotifyState env req s6).carts = s6.carts := by
  unfold postNotifyState
  split <;> rfl

theorem postNotifyState_coupons (env : Env) (req : OrderRequest) (s6 : State) :
    (postNotifyState env req s6).coupons = s6.coupons := by
  unfold postNotifyState
  split <;> rfl

theorem postNotifyState_payments (env : Env) (req : OrderRequest) (s6 : State) :
    (postNotifyState env req s6).payments = s6.payments := by
  unfold postNotifyState
  split <;> rfl

theorem postNotifyState_orders (env : Env) (req : OrderRequest) (s6 : State) :
    (postNotifyState env req s6).orders = s6.orders := by
  unfold postNotifyState
  split <;> rfl

/-! ### Lemmas: inversion of createOrder -/

theorem createOrder_ok_inv (env : Env) (req : OrderRequest) (s : State) (o : Order)
    (s' : State) (h : createOrder env req s = (.ok o, s')) :
    ∃ d, checkoutValidate env.now req s = .ok d ∧ orderCreateValid d = true ∧
      env.notifFails = false ∧ o = successOrder req s d ∧
      s' = postNotifyState env req (withPaymentState req s d (prePaymentState req s d)) := by
  cases hv : checkoutValidate env.now req s with
  | error e =>
    have key : createOrder env req s = (.error e, s) := by
      unfold createOrder
      rw [hv]
    rw [key] at h
    exact absurd (congrArg Prod.fst h) (by simp)
  | ok d =>
    have key : createOrder env req s = checkoutCommit env req s d := by
      unfold createOrder
      rw [hv]
    rw [key] at h
    unfold checkoutCommit at h
    by_cases hov : orderCreateValid d = true
    · rw [if_pos hov] at h
      by_cases ht : d.total < 0
      · rw [if_pos ht] at h
        exact absurd (congrArg Prod.fst h) (by simp)
      · rw [if_neg ht] at h
        by_cases hn : env.notifFails = true
        · rw [if_pos hn] at h
          exact absurd (congrArg Prod.fst h) (by simp)
        · rw [if_neg hn] at h
          simp only [Prod.mk.injEq, Except.ok.injEq] at h
          exact ⟨d, rfl, hov, Bool.not_eq_true _ ▸ hn, h.1.symm, h.2.symm⟩
    · rw [if_neg hov] at h
      exact absurd (congrArg Prod.fst h) (by simp)

theorem orderCreateValid_total_nonneg (d : ValidData) (h : orderCreateValid d = true) :
    0 ≤ d.total := by
  unfold orderCreateValid at h
  simp only [Bool.and_eq_true, decide_eq_true_eq] at h
  exact h.1.1

theorem createOrder_err_state (env : Env) (req : OrderRequest) (s : State) (e : CkError)
    (s' : State) (h : createOrder env req s = (.error e, s'))
    (hne : e ≠ .notificationFailed) : s' = s := by
  cases hv : checkoutValidate env.now req s with
  | error e' =>
    have key : createOrder env req s = (.error e', s) := by
      unfold createOrder
      rw [hv]
    rw [key] at h
    simp only [Prod.mk.injEq] at h
    exact h.2.symm
  | ok d =>
    have key : createOrder env req s = checkoutCommit env req s d := by
      unfold createOrder
      rw [hv]
    rw [key] at h
    unfold checkoutCommit at h
    by_cases hov : orderCreateValid d = true
    · rw [if_pos hov] at h
      rw [if_neg (not_lt.mpr (orderCreateValid_total_nonneg d hov))] at h
      by_cases hn : env.notifFails = true
      · rw [if_pos hn] at h
        simp only [Prod.mk.injEq, Except.error.injEq] at h
        exact absurd h.1.symm hne
      · rw [if_neg hn] at h
        exact absurd (congrArg Prod.fst h) (by simp)
    · rw [if_neg hov] at h
      simp only [Prod.mk.injEq] at h
      exact h.2.symm

/-! ### Lemmas: the validation loop on a fully-stocked cart -/

theorem effectivePrice_nonneg (p : Product) (h1 : 0 ≤ p.price)
    (h2 : 0 ≤ p.discountPrice.getD 0) : 0 ≤ effectivePrice p := by
  unfold effectivePrice
  cases hd : p.discountPrice with
  | none => exact h1
  | some d =>
    by_cases hz : d = 0
    · simp [hz, h1]
    · have h2' : 0 ≤ d := by simpa [hd] using h2
      simpa [hz] using h2'

theorem buildOrderItems_ok (s : State) (items : List CartItem) (prods : CartItem → Product)
    (h : ∀ ci ∈ items, findProduct s ci.productId = some (prods ci) ∧
        (prods ci).isActive = true ∧ (ci.quantity : ℤ) ≤ (prods ci).stock) :
    buildOrderItems s items =
      .ok (items.map (fun ci => mkOrderItem ci (prods ci)),
          (items.map (fun ci => effectivePrice (prods ci) * (ci.quantity : ℚ))).sum) := by
  induction items with
  | nil => simp [buildOrderItems]
  | cons ci rest ih =>
    obtain ⟨hf, ha, hs⟩ := h ci (List.mem_cons_self _ _)
    have ihh := ih (fun x hx => h x (List.mem_cons_of_mem _ hx))
    unfold buildOrderItems
    rw [hf, ihh]
    simp [ha, not_lt.mpr hs]

theorem orderedQtyO_map (l : List CartItem) (g : CartItem → OrderItem) (pid : PId)
    (hid : ∀ ci, (g ci).productId = ci.productId) (hq : ∀ ci, (g ci).quantity = ci.quantity) :
    orderedQtyO (l.map g) pid = orderedQtyC l pid := by
  induction l with
  | nil => rfl
  | cons ci rest ih =>
    simp only [orderedQtyO, orderedQtyC, List.map_cons, List.filter_cons] at ih ⊢
    rw [hid ci]
    by_cases h : ci.productId = pid
    · simp [h, hq ci, ih]
    · simp [h, ih]

/-! ### Claim theorems -/

/-- The error kinds produced by steps 1-3 of `createOrder` (empty cart,
product missing or inactive, insufficient stock, coupon failures). -/
def CkError.isEarlyFailure : CkError → Bool
  | .emptyCart => true
  | .productUnavailable => true
  | .insufficientStock => true
  | .couponInvalid => true
  | .couponExhausted => true
  | .minPurchaseNotMet => true
  | _ => false

/-- Claim C2: whenever `createOrder` fails during steps 1-3 — cart missing or
empty, product missing or inactive, insufficient stock, or any
coupon-validation failure — it returns that error and performs zero side
effects: the final state is exactly the initial state, so no product stock,
coupon usedCount, order, cart, or payment record is created or mutated. -/
theorem createOrder_early_failure_no_side_effects (env : Env) (req : OrderRequest)
    (s : State) (e : CkError) (s' : State)
    (h : createOrder env req s = (.error e, s')) (he : e.isEarlyFailure = true) :
    s' = s := by
  apply createOrder_err_state env req s e s' h
  intro hc
  subst hc
  exact absurd he (by decide)

def wProd : Product :=
  { title := "Widget", price := 10, discountPrice := none, stock := 5,
    isActive := true, images := ["w.png"] }

def wCart : Cart := { userId := 7, items := [{ productId := 1, quantity := 2, price := 10 }] }

def wState : State :=
  { products := [(1, wProd)], carts := [wCart], coupons := [], orders := [],
    payments := [], notifications := [], emails := [], nextOrderId := 100,
    nextPaymentId := 200 }

def wEnv : Env := { now := 0, notifFails := false, emailFails := false }

def wReq : OrderRequest := { userId := 7, paymentMethod := some .cod, couponCode := none }

/-- State with no cart for user 7: `createOrder` fails with `emptyCart`. -/
def wStateNoCart : State :=
  { products := [(1, wProd)], carts := [], coupons := [], orders := [],
    payments := [], notifications := [], emails := [], nextOrderId := 100,
    nextPaymentId := 200 }

theorem createOrder_early_failure_no_side_effects_witness :
    (createOrder wEnv wReq wStateNoCart).2 = wStateNoCart :=
  createOrder_early_failure_no_side_effects wEnv wReq wStateNoCart .emptyCart
    (createOrder wEnv wReq wStateNoCart).2 (by decide) (by decide)

/-- Claim C1: for every non-empty cart whose items all reference active
products with enough stock (and well-formed per the schemas: quantity at
least 1, nonnegative prices), with no coupon code supplied and the
notification service not failing, `createOrder` succeeds; the order's
totalPrice is the sum over items of effective unit price times quantity,
every product's stock decreases by exactly the quantity ordered for it, the
user's cart ends empty, and exactly one Payment record is appended whose
amount equals the order's totalPrice. -/
theorem createOrder_no_coupon_happy_path (env : Env) (req : OrderRequest) (s : State)
    (cart : Cart) (prods : CartItem → Product)
    (hnotif : env.notifFails = false)
    (hcoup : req.couponCode = none)
    (hcart : findCart s req.userId = some cart)
    (hne : cart.items ≠ [])
    (hall : ∀ ci ∈ cart.items,
      findProduct s ci.productId = some (prods ci) ∧
      (prods ci).isActive = true ∧
      (ci.quantity : ℤ) ≤ (prods ci).stock ∧
      1 ≤ ci.quantity ∧
      0 ≤ (prods ci).price ∧
      0 ≤ (prods ci).discountPrice.getD 0) :
    ∃ o pay s',
      createOrder env req s = (.ok o, s') ∧
      o.totalPrice = (cart.items.map (fun ci => effectivePrice (prods ci) * (ci.quantity : ℚ))).sum ∧
      (∀ pid p, findProduct s pid = some p →
        findProduct s' pid = some { p with stock := p.stock - orderedQtyC cart.items pid }) ∧
      findCart s' req.userId = some { cart with items := [] } ∧
      s'.payments = s.payments ++ [pay] ∧
      pay.amount = o.totalPrice := by
  have hbuild := buildOrderItems_ok s cart.items prods
    (fun ci hci => ⟨(hall ci hci).1, (hall ci hci).2.1, (hall ci hci).2.2.1⟩)
  set S : ℚ := (cart.items.map (fun ci => effectivePrice (prods ci) * (ci.quantity : ℚ))).sum with hS
  set dC : ValidData :=
    { cart := cart, orderItems := cart.items.map (fun ci => mkOrderItem ci (prods ci)),
      subtotal := S, couponApplied := none, discount := 0, total := S,
      couponCodeNorm := none } with hdC
  have hval : checkoutValidate env.now req s = .ok dC := by
    have hem : cart.items.isEmpty = false := by
      cases hi : cart.items with
      | nil => exact absurd hi hne
      | cons a l => rfl
    unfold checkoutValidate
    simp only [hcart, hem, Bool.false_eq_true, if_false, hbuild, couponCodeOf, hcoup]
  have hsub : 0 ≤ S := by
    apply List.sum_nonneg
    intro x hx
    obtain ⟨ci, hci, rfl⟩ := List.mem_map.mp hx
    exact mul_nonneg
      (effectivePrice_nonneg _ (hall ci hci).2.2.2.2.1 (hall ci hci).2.2.2.2.2)
      (by positivity)
  have hvalid : orderCreateValid dC = true := by
    unfold orderCreateValid
    simp only [Bool.and_eq_true, decide_eq_true_eq, List.all_eq_true]
    refine ⟨⟨hsub, le_refl 0⟩, ?_⟩
    intro oi hoi
    obtain ⟨ci, hci, rfl⟩ := List.mem_map.mp hoi
    simpa [mkOrderItem] using (hall ci hci).2.2.2.1
  have hco : createOrder env req s =
      (.ok (successOrder req s dC),
       postNotifyState env req (withPaymentState req s dC (prePaymentState req s dC))) := by
    have key : createOrder env req s = checkoutCommit env req s dC := by
      unfold createOrder
      rw [hval]
    rw [key]
    unfold checkoutCommit
    rw [if_pos hvalid]
    rw [if_neg (not_lt.mpr hsub)]
    rw [if_neg (by rw [hnotif]; exact Bool.false_ne_true)]
  refine ⟨successOrder req s dC, mkPaymentRec req dC s.nextPaymentId s.nextOrderId,
    postNotifyState env req (withPaymentState req s dC (prePaymentState req s dC)),
    hco, rfl, ?_, ?_, ?_, rfl⟩
  · intro pid p hp
    have hpp : findProduct
        (postNotifyState env req (withPaymentState req s dC (prePaymentState req s dC))) pid =
        findProduct (prePaymentState req s dC) pid := by
      show findProductL _ _ = findProductL _ _
      rw [postNotifyState_products, withPaymentState_products]
    rw [hpp, findProduct_prePaymentState _ _ _ _ _ hp]
    have hq : orderedQtyO dC.orderItems pid = orderedQtyC cart.items pid := by
      show orderedQtyO (cart.items.map (fun ci => mkOrderItem ci (prods ci))) pid = _
      exact orderedQtyO_map _ _ _ (fun ci => rfl) (fun ci => rfl)
    rw [hq]
  · have hc1 : findCart
        (postNotifyState env req (withPaymentState req s dC (prePaymentState req s dC))) req.userId =
        findCart (prePaymentState req s dC) req.userId := by
      show findCartL _ _ = findCartL _ _
      rw [postNotifyState_carts, withPaymentState_carts]
    rw [hc1, findCart_prePaymentState, hcart]
    rfl
  · show (postNotifyState env req (withPaymentState req s dC (prePaymentState req s dC))).payments = _
    rw [postNotifyState_payments, withPaymentState_payments, prePaymentState_payments,
      prePaymentState_nextPaymentId]

theorem createOrder_no_coupon_happy_path_witness :
    ∃ o pay s',
      createOrder wEnv wReq wState = (.ok o, s') ∧
      o.totalPrice = (wCart.items.map (fun ci => effectivePrice wProd * (ci.quantity : ℚ))).sum ∧
      (∀ pid p, findProduct wState pid = some p →
        findProduct s' pid = some { p with stock := p.stock - orderedQtyC wCart.items pid }) ∧
      findCart s' wReq.userId = some { wCart with items := [] } ∧
      s'.payments = wState.payments ++ [pay] ∧
      pay.amount = o.totalPrice :=
  createOrder_no_coupon_happy_path wEnv wReq wState wCart (fun _ => wProd)
    rfl rfl (by decide) (by decide) (by decide)

/-! ### Inversion of the validation phase -/

theorem checkoutValidate_ok_inv (now : ℤ) (req : OrderRequest) (s : State) (d : ValidData)
    (hv : checkoutValidate now req s = .ok d) :
    findCart s req.userId = some d.cart ∧
    buildOrderItems s d.cart.items = .ok (d.orderItems, d.subtotal) ∧
    ((couponCodeOf req = none ∧ d.couponApplied = none ∧ d.discount = 0 ∧
        d.total = d.subtotal) ∨
     (∃ code c, couponCodeOf req = some code ∧
        applyCoupon now s code d.subtotal = .ok (c, d.discount) ∧
        d.couponApplied = some c ∧ d.total = d.subtotal - d.discount)) := by
  unfold checkoutValidate at hv
  split at hv
  · exact absurd hv (by simp)
  · next cart h1 =>
    split at hv
    · exact absurd hv (by simp)
    · next h2 =>
      split at hv
      · exact absurd hv (by simp)
      · next oitems subtotal h3 =>
        split at hv
        · next h4 =>
          simp only [Except.ok.injEq] at hv
          subst hv
          exact ⟨h1, h3, Or.inl ⟨h4, rfl, rfl, rfl⟩⟩
        · next code h4 =>
          split at hv
          · exact absurd hv (by simp)
          · next c disc h5 =>
            simp only [Except.ok.injEq] at hv
            subst hv
            exact ⟨h1, h3, Or.inr ⟨code, c, h4, h5, rfl, rfl⟩⟩

theorem buildOrderItems_ok_rel (s : State) (items : List CartItem) (oitems : List OrderItem)
    (sub : ℚ) (h : buildOrderItems s items = .ok (oitems, sub)) :
    List.Forall₂ (fun ci oi => ∃ p, findProduct s ci.productId = some p ∧
      oi.price = (match p.discountPrice with
                  | some dp => if dp = 0 then p.price else dp
                  | none => p.price) ∧
      oi.quantity = ci.quantity ∧ oi.productId = ci.productId) items oitems := by
  induction items generalizing oitems sub with
  | nil =>
    unfold buildOrderItems at h
    simp only [Except.ok.injEq, Prod.mk.injEq] at h
    rw [← h.1]
    exact List.Forall₂.nil
  | cons ci rest ih =>
    unfold buildOrderItems at h
    split at h
    · exact absurd h (by simp)
    · next p hp =>
      split at h
      · exact absurd h (by simp)
      · next hact =>
        split at h
        · exact absurd h (by simp)
        · next hstock =>
          split at h
          · exact absurd h (by simp)
          · next items' tot hrec =>
            simp only [Except.ok.injEq, Prod.mk.injEq] at h
            rw [← h.1]
            exact List.Forall₂.cons ⟨p, hp, rfl, rfl, rfl⟩ (ih _ _ hrec)

/-- Claim C5 (amended): for every successful `createOrder`, the Payment record
created has amount equal to the order's totalPrice and method equal to the
supplied paymentMethod with COD as the default; its status is `pending` only
when the request explicitly supplies COD, and `processing` otherwise —
including when no method is supplied and the method defaults to COD, because
the source tests the raw `paymentMethod` value, not the defaulted one. -/
theorem createOrder_payment_fields (env : Env) (req : OrderRequest) (s : State) (o : Order)
    (s' : State) (h : createOrder env req s = (.ok o, s')) :
    ∃ pay, s'.payments = s.payments ++ [pay] ∧ pay.amount = o.totalPrice ∧
      pay.method = req.paymentMethod.getD .cod ∧
      pay.status = (if req.paymentMethod = some .cod then PaymentStatus.pending
                    else PaymentStatus.processing) := by
  obtain ⟨d, hv, hov, hn, ho, hs⟩ := createOrder_ok_inv env req s o s' h
  refine ⟨mkPaymentRec req d s.nextPaymentId s.nextOrderId, ?_, ?_, rfl, rfl⟩
  · rw [hs]
    show (postNotifyState env req _).payments = _
    rw [postNotifyState_payments, withPaymentState_payments, prePaymentState_payments,
      prePaymentState_nextPaymentId]
  · rw [ho]
    rfl

def wReqNoPm : OrderRequest := { userId := 7, paymentMethod := none, couponCode := none }

def ckOk (r : Except CkError Order × State) : Bool :=
  match r.1 with
  | .ok _ => true
  | .error _ => false

/-- Claim C5 (counterexample): on a checkout that supplies no paymentMethod,
the source creates a Payment whose method defaults to COD but whose status is
`processing`, not `pending` — falsifying the claim's defaulted-COD case. -/
theorem createOrder_default_cod_status_processing :
    ckOk (createOrder wEnv wReqNoPm wState) = true ∧
    (createOrder wEnv wReqNoPm wState).2.payments.map (fun p => (p.method, p.status)) =
      [(PayMethod.cod, PaymentStatus.processing)] ∧
    PaymentStatus.processing ≠ PaymentStatus.pending := by decide

/-- The order produced by the `wState` happy-path checkout. -/
def wOrder : Order :=
  { id := 100, userId := 7,
    items := [{ productId := 1, title := "Widget", quantity := 2, price := 10,
                image := some "w.png" }],
    totalPrice := 20, discount := 0, couponCode := none, paymentStatus := .pending,
    orderStatus := .pending, paymentMethod := .cod, paymentId := some 200 }

theorem createOrder_payment_fields_witness :
    ∃ pay, (createOrder wEnv wReq wState).2.payments = wState.payments ++ [pay] ∧
      pay.amount = wOrder.totalPrice ∧
      pay.method = wReq.paymentMethod.getD .cod ∧
      pay.status = (if wReq.paymentMethod = some .cod then PaymentStatus.pending
                    else PaymentStatus.processing) :=
  createOrder_payment_fields wEnv wReq wState wOrder (createOrder wEnv wReq wState).2
    (by decide)

/-- Claim C7 (amended): for every successful `createOrder`, the unit price of
each order item is the product's `discountPrice` when that field is set and
nonzero, and the regular `price` otherwise — a `discountPrice` of 0 is falsy
in `product.discountPrice || product.price` and falls back to the regular
price. -/
theorem createOrder_effective_unit_price (env : Env) (req : OrderRequest) (s : State)
    (o : Order) (s' : State) (h : createOrder env req s = (.ok o, s')) :
    ∃ cart, findCart s req.userId = some cart ∧
      List.Forall₂ (fun ci oi => ∃ p, findProduct s ci.productId = some p ∧
        oi.price = (match p.discountPrice with
                    | some dp => if dp = 0 then p.price else dp
                    | none => p.price) ∧
        oi.quantity = ci.quantity ∧ oi.productId = ci.productId) cart.items o.items := by
  obtain ⟨d, hv, hov, hn, ho, hs⟩ := createOrder_ok_inv env req s o s' h
  obtain ⟨hcart, hbuild, _⟩ := checkoutValidate_ok_inv _ _ _ _ hv
  refine ⟨d.cart, hcart, ?_⟩
  rw [ho]
  exact buildOrderItems_ok_rel _ _ _ _ hbuild

def zProd : Product :=
  { title := "Zero", price := 10, discountPrice := some 0, stock := 5,
    isActive := true, images := [] }

def zState : State :=
  { products := [(1, zProd)],
    carts := [{ userId := 7, items := [{ productId := 1, quantity := 1, price := 10 }] }],
    coupons := [], orders := [], payments := [], notifications := [], emails := [],
    nextOrderId := 0, nextPaymentId := 0 }

def orderItemPrices (r : Except CkError Order) : List ℚ :=
  match r with
  | .ok o => o.items.map (fun oi => oi.price)
  | .error _ => []

/-- Claim C7 (counterexample): a product with `discountPrice` set to 0 is
charged at its regular price 10, not at the set discountPrice 0 — JavaScript
`||` treats the 0 as unset. -/
theorem createOrder_discount_price_zero_uses_price :
    zProd.discountPrice = some 0 ∧
    ckOk (createOrder wEnv wReqNoPm zState) = true ∧
    orderItemPrices (createOrder wEnv wReqNoPm zState).1 = [10] ∧
    (10 : ℚ) ≠ 0 := by decide

theorem createOrder_effective_unit_price_witness :
    ∃ cart, findCart wState wReq.userId = some cart ∧
      List.Forall₂ (fun ci oi => ∃ p, findProduct wState ci.productId = some p ∧
        oi.price = (match p.discountPrice with
                    | some dp => if dp = 0 then p.price else dp
                    | none => p.price) ∧
        oi.quantity = ci.quantity ∧ oi.productId = ci.productId) cart.items wOrder.items :=
  createOrder_effective_unit_price wEnv wReq wState wOrder (createOrder wEnv wReq wState).2
    (by decide)

/-- Claim C8: for every order owned by the caller whose orderStatus is
pending, confirmed or processing, and whose linked Payment exists,
`cancelOrder` succeeds; every product's stock is incremented by exactly the
quantity ordered for it (once), orderStatus becomes cancelled, paymentStatus
becomes refunded exactly when it was paid, and the linked Payment record's
status is set to refunded. -/
theorem cancelOrder_cancellable_path (oid : OId) (uid : UId) (s : State) (order : Order)
    (pid : PayId) (pay : Payment)
    (horder : findOrder s oid uid = some order)
    (hstatus : order.orderStatus = .pending ∨ order.orderStatus = .confirmed ∨
      order.orderStatus = .processing)
    (hpid : order.paymentId = some pid)
    (hpay : findPayment s pid = some pay) :
    ∃ s', cancelOrder oid uid s =
        (.ok { order with
                 orderStatus := OrderStatus.cancelled,
                 paymentStatus := if order.paymentStatus = .paid then OrderPaymentStatus.refunded
                                  else order.paymentStatus }, s') ∧
      (∀ q p, findProduct s q = some p →
        findProduct s' q = some { p with stock := p.stock + orderedQtyO order.items q }) ∧
      findPayment s' pid = some { pay with status := PaymentStatus.refunded } ∧
      (order.paymentStatus ≠ .refunded →
        (((if order.paymentStatus = .paid then OrderPaymentStatus.refunded
           else order.paymentStatus) = OrderPaymentStatus.refunded) ↔
          order.paymentStatus = .paid)) := by
  have hnc : ¬ order.orderStatus = .cancelled := by
    rcases hstatus with h | h | h <;> simp [h]
  have hns : ¬ (order.orderStatus = .shipped ∨ order.orderStatus = .delivered) := by
    rcases hstatus with h | h | h <;> simp [h]
  have key : cancelOrder oid uid s =
      (.ok { order with
               orderStatus := OrderStatus.cancelled,
               paymentStatus := if order.paymentStatus = .paid then OrderPaymentStatus.refunded
                                else order.paymentStatus },
       updatePayment
         (updateOrder (applyIncrements s order.items) order.id
           (fun _ => { order with
                         orderStatus := OrderStatus.cancelled,
                         paymentStatus := if order.paymentStatus = .paid then
                             OrderPaymentStatus.refunded
                           else order.paymentStatus }))
         pid (fun p => { p with status := PaymentStatus.refunded })) := by
    unfold cancelOrder
    simp only [horder, if_neg hnc, if_neg hns, hpid]
  refine ⟨_, key, ?_, ?_, ?_⟩
  · intro q p hp
    exact findProduct_applyIncrements _ _ _ _ hp
  · have hmid : findPayment (updateOrder (applyIncrements s order.items) order.id
        (fun _ => { order with
                      orderStatus := OrderStatus.cancelled,
                      paymentStatus := if order.paymentStatus = .paid then
                          OrderPaymentStatus.refunded
                        else order.paymentStatus })) pid = some pay := by
      show findPaymentL _ _ = _
      rw [show (updateOrder (applyIncrements s order.items) order.id _).payments =
        (applyIncrements s order.items).payments from rfl, applyIncrements_payments]
      exact hpay
    rw [findPayment_updatePayment_self _ pid
      (fun p => { p with status := PaymentStatus.refunded }) (fun a => rfl), hmid]
    rfl
  · intro href
    by_cases hpaid : order.paymentStatus = .paid
    · simp [hpaid]
    · simp [hpaid, href]

def cOrder : Order :=
  { id := 50, userId := 9,
    items := [{ productId := 1, title := "Widget", quantity := 3, price := 10, image := none }],
    totalPrice := 30, discount := 0, couponCode := none, paymentStatus := .paid,
    orderStatus := .confirmed, paymentMethod := .card, paymentId := some 60 }

def cPayment : Payment :=
  { id := 60, orderId := 50, userId := 9, amount := 30, method := .card, status := .completed }

def cState : State :=
  { products := [(1, wProd)], carts := [], coupons := [], orders := [cOrder],
    payments := [cPayment], notifications := [], emails := [], nextOrderId := 51,
    nextPaymentId := 61 }

theorem cancelOrder_cancellable_path_witness :
    ∃ s', cancelOrder 50 9 cState =
        (.ok { cOrder with
                 orderStatus := OrderStatus.cancelled,
                 paymentStatus := if cOrder.paymentStatus = .paid then OrderPaymentStatus.refunded
                                  else cOrder.paymentStatus }, s') ∧
      (∀ q p, findProduct cState q = some p →
        findProduct s' q = some { p with stock := p.stock + orderedQtyO cOrder.items q }) ∧
      findPayment s' 60 = some { cPayment with status := PaymentStatus.refunded } ∧
      (cOrder.paymentStatus ≠ .refunded →
        (((if cOrder.paymentStatus = .paid then OrderPaymentStatus.refunded
           else cOrder.paymentStatus) = OrderPaymentStatus.refunded) ↔
          cOrder.paymentStatus = .paid)) :=
  cancelOrder_cancellable_path 50 9 cState cOrder 60 cPayment (by decide)
    (Or.inr (Or.inl (by decide))) (by decide) (by decide)

/-! ### Claim C10: coupon usedCount discipline -/

theorem applyCoupon_ok_findValidCoupon (now : ℤ) (s : State) (code : String) (sub : ℚ)
    (c : Coupon) (disc : ℚ) (h : applyCoupon now s code sub = .ok (c, disc)) :
    findValidCoupon now s code = some c := by
  unfold applyCoupon at h
  split at h
  · exact absurd h (by simp)
  · next c' hc' =>
    split at h
    · exact absurd h (by simp)
    · split at h
      · exact absurd h (by simp)
      · simp only [Except.ok.injEq, Prod.mk.injEq] at h
        rw [hc', h.1]

theorem postNotifyState_notifications (env : Env) (req : OrderRequest) (s6 : State) :
    (postNotifyState env req s6).notifications =
      s6.notifications ++ [{ userId := req.userId, ntype := "order_placed" }] := by
  unfold postNotifyState
  split <;> rfl

/-- Claim C10 (amended): a successful `createOrder` that applies a coupon
increments that coupon's usedCount by exactly 1 and leaves every other coupon
unchanged; every `createOrder` that fails before the order record is created
(any error other than the propagated notification failure) leaves all coupons
and all orders untouched, so the increment happens only after the order is
created; and `cancelOrder` never touches any coupon, so usedCount is never
decremented. (A failure thrown by the post-commit notification step reports
failure while keeping the increment — see the counterexample.) -/
theorem coupon_usedCount_discipline :
    (∀ env req s code o s', couponCodeOf req = some code →
      createOrder env req s = (.ok o, s') →
      ∃ c, findValidCoupon env.now s code = some c ∧
        s'.coupons = s.coupons.map
          (fun x => if x.code == c.code then { x with usedCount := x.usedCount + 1 }
                    else x)) ∧
    (∀ env req s e s', createOrder env req s = (.error e, s') →
      e ≠ .notificationFailed → s'.coupons = s.coupons ∧ s'.orders = s.orders) ∧
    (∀ oid uid s, ((cancelOrder oid uid s).2).coupons = s.coupons) := by
  refine ⟨?_, ?_, ?_⟩
  · intro env req s code o s' hcode h
    obtain ⟨d, hv, hov, hn, ho, hs⟩ := createOrder_ok_inv env req s o s' h
    obtain ⟨hcart, hbuild, hcoup⟩ := checkoutValidate_ok_inv _ _ _ _ hv
    rcases hcoup with ⟨h1, _⟩ | ⟨code', c, h1, h2, h3, h4⟩
    · rw [hcode] at h1
      cases h1
    · rw [hcode] at h1
      injection h1 with h1
      subst h1
      refine ⟨c, applyCoupon_ok_findValidCoupon _ _ _ _ _ _ h2, ?_⟩
      rw [hs]
      show (postNotifyState env req _).coupons = _
      rw [postNotifyState_coupons, withPaymentState_coupons,
        prePaymentState_coupons_some _ _ _ c h3]
  · intro env req s e s' h hne
    have := createOrder_err_state env req s e s' h hne
    subst this
    exact ⟨rfl, rfl⟩
  · intro oid uid s
    unfold cancelOrder
    cases horder : findOrder s oid uid with
    | none => rfl
    | some order =>
      by_cases hnc : order.orderStatus = .cancelled
      · simp only [if_pos hnc]
      · simp only [if_neg hnc]
        by_cases hns : order.orderStatus = .shipped ∨ order.orderStatus = .delivered
        · simp only [if_pos hns]
        · simp only [if_neg hns]
          cases hp : order.paymentId with
          | some pid =>
            show ((updatePayment (updateOrder (applyIncrements s order.items) _ _) _ _)).coupons = _
            show (applyIncrements s order.items).coupons = _
            exact applyIncrements_coupons _ _
          | none =>
            show (updateOrder (applyIncrements s order.items) _ _).coupons = _
            show (applyIncrements s order.items).coupons = _
            exact applyIncrements_coupons _ _

def uCoupon : Coupon :=
  { code := "SAVE20", discountType := .percentage, discountValue := 20,
    minPurchaseAmount := 0, maxDiscountAmount := none, validFrom := -10, validUntil := 10,
    usageLimit := none, usedCount := 0, isActive := true }

def uState : State :=
  { products := [(1, wProd)], carts := [wCart], coupons := [uCoupon], orders := [],
    payments := [], notifications := [], emails := [], nextOrderId := 0,
    nextPaymentId := 0 }

def uReq : OrderRequest :=
  { userId := 7, paymentMethod := some .cod, couponCode := some "save20" }

theorem coupon_usedCount_discipline_witness :
    (∃ c, findValidCoupon 0 uState "save20" = some c ∧
      (createOrder wEnv uReq uState).2.coupons = uState.coupons.map
        (fun x => if x.code == c.code then { x with usedCount := x.usedCount + 1 }
                  else x)) ∧
    ((createOrder wEnv wReqNoPm wStateNoCart).2.coupons = wStateNoCart.coupons ∧
      (createOrder wEnv wReqNoPm wStateNoCart).2.orders = wStateNoCart.orders) ∧
    ((cancelOrder 50 9 cState).2).coupons = cState.coupons := by
  refine ⟨?_, ?_, coupon_usedCount_discipline.2.2 50 9 cState⟩
  · exact coupon_usedCount_discipline.1 wEnv uReq uState "save20"
      ((createOrder wEnv uReq uState).1.toOption.get (by decide))
      (createOrder wEnv uReq uState).2 (by decide) (by decide)
  · exact coupon_usedCount_discipline.2.1 wEnv wReqNoPm wStateNoCart .emptyCart
      (createOrder wEnv wReqNoPm wStateNoCart).2 (by decide) (by decide)

def wEnvNotif : Env := { now := 0, notifFails := true, emailFails := false }

/-- Claim C10 (counterexample): a coupon checkout whose notification insert
throws reports failure, yet the coupon's usedCount has already been
incremented and stays incremented — so a failing createOrder can change
usedCount. -/
theorem createOrder_notif_failure_keeps_coupon_increment :
    (createOrder wEnvNotif uReq uState).1 = .error .notificationFailed ∧
    (createOrder wEnvNotif uReq uState).2.coupons.map Coupon.usedCount = [1] ∧
    uState.coupons.map Coupon.usedCount = [0] := by decide

/-! ### Claim C4: fates of notification and email failures after commit -/

/-- Claim C4 (amended): once a checkout reaches the notification/email step,
a failure of the confirmation email is caught and logged: the reported
outcome and every database record are unchanged. A failure thrown while
emitting the order-placed notification, however, is not caught: `createOrder`
reports failure (the error propagates through `catchAsync`) even though the
already-persisted order, coupon, stock, cart and payment changes are not
rolled back — only the notification document itself is missing. -/
theorem createOrder_notification_email_failure_semantics (now : ℤ) (req : OrderRequest)
    (s : State) (o : Order) (s1 : State)
    (h : createOrder { now := now, notifFails := false, emailFails := false } req s =
      (.ok o, s1)) :
    (∀ ef, ∃ s2, createOrder { now := now, notifFails := false, emailFails := ef } req s =
        (.ok o, s2) ∧
      s2.products = s1.products ∧ s2.carts = s1.carts ∧ s2.coupons = s1.coupons ∧
      s2.orders = s1.orders ∧ s2.payments = s1.payments ∧
      s2.notifications = s1.notifications) ∧
    (∀ ef, ∃ s3, createOrder { now := now, notifFails := true, emailFails := ef } req s =
        (.error .notificationFailed, s3) ∧
      s3.products = s1.products ∧ s3.carts = s1.carts ∧ s3.coupons = s1.coupons ∧
      s3.orders = s1.orders ∧ s3.payments = s1.payments ∧
      s3.notifications = s.notifications) := by
  obtain ⟨d, hv, hov, hn, ho, hs⟩ :=
    createOrder_ok_inv { now := now, notifFails := false, emailFails := false } req s o s1 h
  have hnl : ¬ d.total < 0 := not_lt.mpr (orderCreateValid_total_nonneg d hov)
  subst ho
  constructor
  · intro ef
    have key : createOrder { now := now, notifFails := false, emailFails := ef } req s =
        checkoutCommit { now := now, notifFails := false, emailFails := ef } req s d := by
      unfold createOrder
      rw [hv]
    have hne1 : ¬ ((⟨now, false, ef⟩ : Env).notifFails = true) := by simp
    have hco : createOrder { now := now, notifFails := false, emailFails := ef } req s =
        (.ok (successOrder req s d),
         postNotifyState { now := now, notifFails := false, emailFails := ef } req
           (withPaymentState req s d (prePaymentState req s d))) := by
      rw [key]
      unfold checkoutCommit
      rw [if_pos hov, if_neg hnl, if_neg hne1]
    refine ⟨_, hco, ?_, ?_, ?_, ?_, ?_, ?_⟩ <;>
      rw [hs] <;>
      simp only [postNotifyState_products, postNotifyState_carts, postNotifyState_coupons,
        postNotifyState_orders, postNotifyState_payments, postNotifyState_notifications]
  · intro ef
    have key : createOrder { now := now, notifFails := true, emailFails := ef } req s =
        checkoutCommit { now := now, notifFails := true, emailFails := ef } req s d := by
      unfold createOrder
      rw [hv]
    have hpos1 : ((⟨now, true, ef⟩ : Env).notifFails = true) := rfl
    have hco : createOrder { now := now, notifFails := true, emailFails := ef } req s =
        (.error .notificationFailed,
         withPaymentState req s d (prePaymentState req s d)) := by
      rw [key]
      unfold checkoutCommit
      rw [if_pos hov, if_neg hnl, if_pos hpos1]
    refine ⟨_, hco, ?_, ?_, ?_, ?_, ?_,
        by simp only [withPaymentState_notifications, prePaymentState_notifications]⟩ <;>
      (rw [hs]
       simp only [postNotifyState_products, postNotifyState_carts, postNotifyState_coupons,
         postNotifyState_orders, postNotifyState_payments])

/-- Claim C4 (counterexample): the same checkout input succeeds when the
notification insert succeeds, but reports failure when the notification
insert throws — the reported outcome is changed by a notification failure
(`sendNotification` is awaited without a try/catch). -/
theorem createOrder_notification_failure_fails_request :
    ckOk (createOrder wEnv wReq wState) = true ∧
    (createOrder wEnvNotif wReq wState).1 = .error .notificationFailed := by decide

theorem createOrder_notification_email_failure_semantics_witness :
    ∃ s3, createOrder { now := 0, notifFails := true, emailFails := false } wReq wState =
        (.error .notificationFailed, s3) ∧
      s3.products = (createOrder wEnv wReq wState).2.products ∧
      s3.carts = (createOrder wEnv wReq wState).2.carts ∧
      s3.coupons = (createOrder wEnv wReq wState).2.coupons ∧
      s3.orders = (createOrder wEnv wReq wState).2.orders ∧
      s3.payments = (createOrder wEnv wReq wState).2.payments ∧
      s3.notifications = wState.notifications :=
  (createOrder_notification_email_failure_semantics 0 wReq wState wOrder
    (createOrder wEnv wReq wState).2 (by decide)).2 false

/-! ### Claim C3: the FLAT50 fixed coupon on a subtotal of 30 -/

def fCoupon : Coupon :=
  { code := "FLAT50", discountType := .fixed, discountValue := 50,
    minPurchaseAmount := 0, maxDiscountAmount := none, validFrom := -10, validUntil := 10,
    usageLimit := none, usedCount := 0, isActive := true }

def fProd : Product :=
  { title := "Gadget", price := 30, discountPrice := none, stock := 1,
    isActive := true, images := [] }

def fState : State :=
  { products := [(1, fProd)],
    carts := [{ userId := 7, items := [{ productId := 1, quantity := 1, price := 30 }] }],
    coupons := [fCoupon], orders := [], payments := [], notifications := [], emails := [],
    nextOrderId := 0, nextPaymentId := 0 }

def fReq : OrderRequest :=
  { userId := 7, paymentMethod := some .cod, couponCode := some "FLAT50" }

/-- Claim C3 (counterexample): the FLAT50/subtotal-30 checkout produces no
order at all — `createOrder` fails with the Mongoose validation error raised
by `Order.create` (`totalPrice` carries `min: 0`), leaving the state
untouched, instead of producing an order with totalPrice -20. -/
theorem createOrder_flat50_no_order_created :
    createOrder wEnv fReq fState = (.error .validationError, fState) ∧
    (createOrder wEnv fReq fState).2.orders = [] ∧
    (createOrder wEnv fReq fState).2.payments = [] := by decide

/-- Claim C3 (amended): for the fixed coupon FLAT50 (discountValue 50) on a
cart of subtotal 30 that passes coupon validation, the checkout computes
discount = 50 and candidate totalPrice = -20 — the fixed discount is not
clamped — but `Order.create` then rejects the negative totalPrice against the
schema's `min: 0`, so `createOrder` fails with a validation error, no order
is produced, and no side effect occurs. -/
theorem createOrder_flat50_unfloored_total_rejected :
    ∃ d, checkoutValidate 0 fReq fState = .ok d ∧ d.subtotal = 30 ∧ d.discount = 50 ∧
      d.total = -20 ∧ orderCreateValid d = false ∧
      createOrder wEnv fReq fState = (.error .validationError, fState) :=
  ⟨{ cart := { userId := 7, items := [{ productId := 1, quantity := 1, price := 30 }] },
     orderItems := [{ productId := 1, title := "Gadget", quantity := 1, price := 30,
                      image := none }],
     subtotal := 30, couponApplied := some fCoupon, discount := 50, total := 30 - 50,
     couponCodeNorm := some "FLAT50" },
   by decide, by decide, by decide, by decide, by decide, by decide⟩

/-! ### Claim C6: exhausted coupons -/

/-- Claim C6 (amended): for every coupon that the checkout's date-and-active
query does return (active, within its validity window) whose usageLimit is
set to a nonzero value with usedCount ≥ usageLimit, `createOrder` fails with
the coupon-exhausted error regardless of the cart subtotal; a coupon outside
its validity window never reaches this check (the query fails first with the
invalid-coupon error), and a usageLimit of 0 is falsy and is skipped. -/
theorem createOrder_coupon_exhausted (env : Env) (req : OrderRequest) (s : State)
    (cart : Cart) (oitems : List OrderItem) (subtotal : ℚ) (code : String) (c : Coupon)
    (n : Nat)
    (hcart : findCart s req.userId = some cart)
    (hne : cart.items ≠ [])
    (hbuild : buildOrderItems s cart.items = .ok (oitems, subtotal))
    (hcode : couponCodeOf req = some code)
    (hfind : findValidCoupon env.now s code = some c)
    (hlim : c.usageLimit = some n) (hn : n ≠ 0) (hused : n ≤ c.usedCount) :
    createOrder env req s = (.error .couponExhausted, s) := by
  have hem : cart.items.isEmpty = false := by
    cases hi : cart.items with
    | nil => exact absurd hi hne
    | cons a l => rfl
  have hexh : couponExhaustedCheck c = true := by
    unfold couponExhaustedCheck
    rw [hlim]
    simp [hn, hused]
  have hac : applyCoupon env.now s code subtotal = .error .couponExhausted := by
    unfold applyCoupon
    simp only [hfind, hexh, if_true]
  have hval : checkoutValidate env.now req s = .error .couponExhausted := by
    unfold checkoutValidate
    simp only [hcart, hem, Bool.false_eq_true, if_false, hbuild, hcode, hac]
  unfold createOrder
  rw [hval]

def eCoupon : Coupon :=
  { code := "ONEUSE", discountType := .fixed, discountValue := 5,
    minPurchaseAmount := 0, maxDiscountAmount := none, validFrom := -10, validUntil := 10,
    usageLimit := some 1, usedCount := 1, isActive := true }

def eState : State :=
  { products := [(1, wProd)], carts := [wCart], coupons := [eCoupon], orders := [],
    payments := [], notifications := [], emails := [], nextOrderId := 0,
    nextPaymentId := 0 }

def eReq : OrderRequest :=
  { userId := 7, paymentMethod := some .cod, couponCode := some "oneuse" }

theorem createOrder_coupon_exhausted_witness :
    createOrder wEnv eReq eState = (.error .couponExhausted, eState) :=
  createOrder_coupon_exhausted wEnv eReq eState wCart
    [{ productId := 1, title := "Widget", quantity := 2, price := 10, image := some "w.png" }]
    20 "oneuse" eCoupon 1 (by decide) (by decide) (by decide) (by decide) (by decide)
    (by decide) (by decide) (by decide)

/-- An exhausted coupon (usageLimit 1, usedCount 1) whose validity window has
already passed. -/
def xCoupon : Coupon :=
  { code := "ONEUSE", discountType := .fixed, discountValue := 5,
    minPurchaseAmount := 0, maxDiscountAmount := none, validFrom := -10, validUntil := -5,
    usageLimit := some 1, usedCount := 1, isActive := true }

def xState : State :=
  { products := [(1, wProd)], carts := [wCart], coupons := [xCoupon], orders := [],
    payments := [], notifications := [], emails := [], nextOrderId := 0,
    nextPaymentId := 0 }

/-- Claim C6 (counterexample): a coupon with usageLimit 1 and usedCount 1 but
an expired validity window fails with the invalid-coupon error, not with
CouponExhausted — the date filter in `Coupon.findOne` runs before the usage
check, so exhaustion is not reported regardless of dates. -/
theorem createOrder_expired_exhausted_coupon_reports_invalid :
    createOrder wEnv eReq xState = (.error .couponInvalid, xState) ∧
    CkError.couponInvalid ≠ CkError.couponExhausted := by decide

/-! ### Claim C9: two concurrent checkouts over the same product -/

def rCartA : Cart := { userId := 7, items := [{ productId := 1, quantity := 5, price := 10 }] }

def rCartB : Cart := { userId := 8, items := [{ productId := 1, quantity := 5, price := 10 }] }

def rState : State :=
  { products := [(1, wProd)], carts := [rCartA, rCartB], coupons := [], orders := [],
    payments := [], notifications := [], emails := [], nextOrderId := 0,
    nextPaymentId := 0 }

def rReqA : OrderRequest := { userId := 7, paymentMethod := some .cod, couponCode := none }

def rReqB : OrderRequest := { userId := 8, paymentMethod := some .cod, couponCode := none }

/-- Claim C9 (amended): when the two createOrder calls (each requesting
quantity 5 of a product with stock 5) run serially, exactly one succeeds, the
other fails with InsufficientStock, and the stock ends at 0; but the source's
unguarded validate-then-decrement sequence also admits an interleaving of the
two calls in which both succeed and the stock ends at -5 (see the
counterexample), so the claimed outcome is not guaranteed under concurrency. -/
theorem createOrder_same_product_serial :
    ckOk (createOrder wEnv rReqA rState) = true ∧
    (createOrder wEnv rReqB (createOrder wEnv rReqA rState).2).1 =
      .error .insufficientStock ∧
    (findProduct (createOrder wEnv rReqB (createOrder wEnv rReqA rState).2).2 1).map
      Product.stock = some 0 := by decide

/-- Schedule: both threads read the cart and pass stock validation before
either writes, then each runs its commit steps. -/
def schedRace : List Bool :=
  [true, true, false, false] ++ List.replicate 7 true ++ List.replicate 7 false

def raceResult : State × CkThread × CkThread :=
  runSched wEnv schedRace (rState, CkThread.start 7 (some .cod), CkThread.start 8 (some .cod))

/-- Claim C9 (counterexample): under the interleaving in which both calls
validate against the untouched stock before either decrements, both orders
succeed and the product's stock ends at -5 — not exactly one success with
stock 0. -/
theorem createOrder_race_both_succeed_negative_stock :
    raceResult.2.1.result = some (.ok ()) ∧
    raceResult.2.2.result = some (.ok ()) ∧
    (findProduct raceResult.1 1).map Product.stock = some (-5) := by decide
